import Mathlib

/-!
# PITC Bill Checker — verification development

Shallow embedding of the PITC bill-checker service (`pitc-bill.js`,
`server.js`) and proofs about its behaviour.

Modelling conventions:
* JavaScript strings are Lean `String`s; a value that may be `undefined`
  is an `Option String`.
* JavaScript truthiness on a possibly-undefined string (`!v`) is
  `isFalsyStr`: true exactly when the value is `undefined` or `""`.
* `String.prototype.trim` is `jsTrim`, dropping the ECMAScript WhiteSpace
  and LineTerminator code points from both ends.
* `String.prototype.toLowerCase` / `toUpperCase` are per-character ASCII
  case maps (all strings that matter here are ASCII).
* `String.prototype.includes` is `jsIncludes` (substring containment).
* `new URLSearchParams(record)` coerces each record value with the JS
  `ToString` operation; in particular `undefined` becomes the literal
  string `"undefined"`.  This coercion is `jsToStringCoerce`.
* The two axios calls are modelled by an environment `NetEnv` mapping a
  URL (and, for POST, a form body) to either a network error or a parsed
  response.  The orchestrator returns, besides its result, the trace of
  network requests it performed, in order.
-/

namespace PITC

/-- ECMAScript WhiteSpace ∪ LineTerminator code points (the set trimmed by
`String.prototype.trim`). -/
def isJsWhitespace (c : Char) : Bool :=
  c == ' ' || c == '\t' || c == '\n' || c == '\r' ||
  c.val == 0x0B || c.val == 0x0C || c.val == 0xA0 || c.val == 0x1680 ||
  (0x2000 ≤ c.val && c.val ≤ 0x200A) ||
  c.val == 0x2028 || c.val == 0x2029 || c.val == 0x202F ||
  c.val == 0x205F || c.val == 0x3000 || c.val == 0xFEFF

/-- JS `String.prototype.trim`: drop leading and trailing JS whitespace. -/
def jsTrim (s : String) : String :=
  ⟨((s.data.dropWhile isJsWhitespace).reverse.dropWhile isJsWhitespace).reverse⟩

/-- JS `String.prototype.toLowerCase` (ASCII fragment): per-character case
map. -/
def jsToLower (s : String) : String := ⟨s.data.map Char.toLower⟩

/-- JS `String.prototype.toUpperCase` (ASCII fragment): per-character case
map. -/
def jsToUpper (s : String) : String := ⟨s.data.map Char.toUpper⟩

/-- List infix test: `sub` occurs contiguously inside `l`. -/
def listInfixOf (sub l : List Char) : Bool :=
  sub.isPrefixOf l ||
    match l with
    | [] => false
    | _ :: t => listInfixOf sub t

/-- JS `String.prototype.includes`: `sub` is a substring of `s`. -/
def jsIncludes (s sub : String) : Bool := listInfixOf sub.data s.data

/-- JS truthiness test `!v` for a possibly-undefined string value:
falsy iff `undefined` or the empty string. -/
def isFalsyStr : Option String → Bool
  | none => true
  | some s => s == ""

/-- The JS `ToString` coercion applied by `new URLSearchParams(record)` to
each record value: a string is itself, `undefined` prints as the literal
string `"undefined"`. -/
def jsToStringCoerce : Option String → String
  | none => "undefined"
  | some s => s

/-! ## Company registry (`COMPANIES`, `getCompanyByCode`,
`getSupportedCompanies` in `pitc-bill.js`) -/

/-- One entry of the `COMPANIES` table.  The `refPattern` field of the
source is the same regular expression `^\d{10,14}$` for every company and
is never read by the code under verification, so it is not materialised
here. -/
structure Company where
  name : String
  code : String
  url : String
deriving DecidableEq, Repr

/-- The `COMPANIES` object: an insertion-ordered association list from
(upper-case) property key to company record, exactly as in the source. -/
def COMPANIES : List (String × Company) :=
  [("HESCO", ⟨"Hyderabad Electric Supply Company", "hesco",
      "https://bill.pitc.com.pk/hescobill"⟩),
   ("LESCO", ⟨"Lahore Electric Supply Company", "lesco",
      "https://bill.pitc.com.pk/lescobill"⟩),
   ("FESCO", ⟨"Faisalabad Electric Supply Company", "fesco",
      "https://bill.pitc.com.pk/fescobill"⟩),
   ("IESCO", ⟨"Islamabad Electric Supply Company", "iesco",
      "https://bill.pitc.com.pk/iescobill"⟩),
   ("MEPCO", ⟨"Multan Electric Power Company", "mepco",
      "https://bill.pitc.com.pk/mepcobill"⟩),
   ("GEPCO", ⟨"Gujranwala Electric Power Company", "gepco",
      "https://bill.pitc.com.pk/gepcobill"⟩),
   ("PESCO", ⟨"Peshawar Electric Supply Company", "pesco",
      "https://bill.pitc.com.pk/pescobill"⟩),
   ("QESCO", ⟨"Quetta Electric Supply Company", "qesco",
      "https://bill.pitc.com.pk/qescobill"⟩),
   ("SEPCO", ⟨"Sukkur Electric Power Company", "sepco",
      "https://bill.pitc.com.pk/sepcobill"⟩)]

/-- Source `getCompanyByCode`: case-insensitive lookup — upper-case the argument
and read the property; a missing property (`|| null`) is `none`. -/
def getCompanyByCode (code : String) : Option Company :=
  (COMPANIES.find? (fun p => p.1 == jsToUpper code)).map (fun p => p.2)

/-- Source `getSupportedCompanies`: the (code, name) projection of the table, in
insertion order. -/
def getSupportedCompanies : List (String × String) :=
  COMPANIES.map (fun p => (p.2.code, p.2.name))

/-- The error message built for an unknown company code:
`Object.keys(COMPANIES).map(k => k.toLowerCase()).join(", ")`
interpolated into the fixed prefix. -/
def invalidCompanyMessage : String :=
  "Invalid company code. Supported: " ++
    String.intercalate ", " (COMPANIES.map (fun p => jsToLower p.1))

/-! ## Reference-number validator (`validateReferenceNumber`) -/

/-- The JS regular expression `^\d{10,14}$` (no unicode flag): the whole
string is 10 to 14 ASCII digits. -/
def refNoPatternTest (s : String) : Bool :=
  decide (10 ≤ s.length) && decide (s.length ≤ 14) && s.data.all Char.isDigit

/-- Result object of `validateReferenceNumber`: `{valid, error?, refNo?}`. -/
structure ValidationResult where
  valid : Bool
  error : Option String
  refNo : Option String
deriving DecidableEq, Repr

/-- Source `validateReferenceNumber(refNo)`: falsy input fails with the
"required" message; otherwise the trimmed string must match
`^\d{10,14}$`, else the "must be 10-14 digits" message; on success the
trimmed string is returned. -/
def validateReferenceNumber (refNo : Option String) : ValidationResult :=
  if isFalsyStr refNo then
    ⟨false, some "Reference number is required", none⟩
  else
    let refNoStr := jsTrim (jsToStringCoerce refNo)
    if refNoPatternTest refNoStr then
      ⟨true, none, some refNoStr⟩
    else
      ⟨false, some "Reference number must be 10-14 digits", none⟩

/-! ## GET page and token extraction (STEP 1–2 of `getPITCBill`) -/

/-- An `<input>` element of the fetched portal page, with its optional
`id`, `name` and `value` attributes; cheerio's `.val()` on an input reads
the `value` attribute (`undefined` when absent). -/
structure InputElem where
  id : Option String
  name : Option String
  value : Option String
deriving DecidableEq, Repr

/-- The parsed GET response: the hidden input elements of the page, in
document order (the only part of the markup the code reads).  Response
headers (the session cookie) are not modelled: no claim mentions them. -/
structure GetPage where
  inputs : List InputElem
deriving DecidableEq, Repr

/-- Cheerio `$("#<i>").val()`: the `value` attribute of the first element whose
`id` equals `i`, `undefined` if no such element or no such attribute. -/
def valById (page : GetPage) (i : String) : Option String :=
  (page.inputs.find? (fun e => e.id == some i)).bind (fun e => e.value)

/-- Cheerio `$("input[name=<n>]").val()`: same, selecting by the `name`
attribute. -/
def valByName (page : GetPage) (n : String) : Option String :=
  (page.inputs.find? (fun e => e.name == some n)).bind (fun e => e.value)

/-- The four `.val()` reads of STEP 2, in source order: `__VIEWSTATE`,
`__VIEWSTATEGENERATOR`, `__EVENTVALIDATION` by id, and
`__RequestVerificationToken` by input name. -/
def extractTokens (page : GetPage) :
    Option String × Option String × Option String × Option String :=
  (valById page "__VIEWSTATE",
   valById page "__VIEWSTATEGENERATOR",
   valById page "__EVENTVALIDATION",
   valByName page "__RequestVerificationToken")

/-! ## Form body (STEP 3) -/

/-- The `URLSearchParams` record of STEP 3, as the ordered list of
(name, value) pairs it holds; each record value goes through the JS
`ToString` coercion (`jsToStringCoerce`). -/
def buildFormBody (viewState viewStateGenerator eventValidation
    requestVerificationToken : Option String) (refNo : String) :
    List (String × String) :=
  [("__VIEWSTATE", jsToStringCoerce viewState),
   ("__VIEWSTATEGENERATOR", jsToStringCoerce viewStateGenerator),
   ("__EVENTVALIDATION", jsToStringCoerce eventValidation),
   ("__RequestVerificationToken", jsToStringCoerce requestVerificationToken),
   ("rbSearchByList", "refno"),
   ("searchTextBox", refNo),
   ("ruCodeTextBox", ""),
   ("btnSearch", "Search")]

/-! ## POST response and bill parsing (STEP 4–5, `parseBillDetails`) -/

/-- The parsed POST response, restricted to what the code reads:
* `errorText`: the raw text of the `#ua` error region (empty when the
  region is absent);
* `rows`: the `table tr` rows in document order.  A row is the list of
  its `td` cell texts; a row carried as `Except.error msg` models the
  cheerio `.each` callback throwing an exception with message `msg` while
  processing that row (the exception aborts the loop and is caught by
  `parseBillDetails`' catch block);
* `amountElemText`: the text of the first element whose id or class
  contains "amount", if any;
* `html`: the serialised markup `$.html()`. -/
instance : DecidableEq (Except String (List String)) := fun a b =>
  match a, b with
  | Except.ok x, Except.ok y =>
    if h : x = y then isTrue (by rw [h]) else isFalse (by simp [h])
  | Except.error x, Except.error y =>
    if h : x = y then isTrue (by rw [h]) else isFalse (by simp [h])
  | Except.ok _, Except.error _ => isFalse (by simp)
  | Except.error _, Except.ok _ => isFalse (by simp)

structure PostDoc where
  errorText : String
  rows : List (Except String (List String))
  amountElemText : Option String
  html : String
deriving DecidableEq, Repr

/-- The `consumerDetails` of a bill record.  All fields optional strings. -/
structure ConsumerDetails where
  name : Option String := none
  address : Option String := none
  customerId : Option String := none
deriving DecidableEq, Repr

/-- The `billDetails` of a bill record. -/
structure BillDetails where
  tariff : Option String := none
  dueDate : Option String := none
  issueDate : Option String := none
  readingDate : Option String := none
  currentReading : Option String := none
  previousReading : Option String := none
  unitsConsumed : Option String := none
deriving DecidableEq, Repr

/-- The `charges` of a bill record. -/
structure Charges where
  totalAmount : Option String := none
  amountAfterDueDate : Option String := none
  electricityCharges : Option String := none
  gst : Option String := none
  displayAmount : Option String := none
deriving DecidableEq, Repr

/-- The `billData` object built by `parseBillDetails`. -/
structure BillData where
  referenceNumber : String
  company : String
  consumerDetails : ConsumerDetails := {}
  billDetails : BillDetails := {}
  charges : Charges := {}
  rawHtml : Option String := none
  parseError : Option String := none
deriving DecidableEq, Repr

/-- The `billData` object as initialised at the top of
`parseBillDetails`, before any row is scanned. -/
def initBillData (refNo companyCode : String) : BillData :=
  { referenceNumber := refNo, company := companyCode }

/-- The body of the `.each` callback for one row: with at least two
cells, trim-and-lower cell 0 as the label, trim cell 1 as the value, and
run the label through the if/else chain of `parseBillDetails`; shorter
rows are skipped. -/
def processRow (bd : BillData) (cells : List String) : BillData :=
  match cells with
  | c0 :: c1 :: _ =>
    let label := jsToLower (jsTrim c0)
    let value := jsTrim c1
    if jsIncludes label "consumer" || jsIncludes label "name" then
      { bd with consumerDetails := { bd.consumerDetails with name := some value } }
    else if jsIncludes label "address" then
      { bd with consumerDetails := { bd.consumerDetails with address := some value } }
    else if jsIncludes label "customer" || jsIncludes label "id" then
      { bd with consumerDetails := { bd.consumerDetails with customerId := some value } }
    else if jsIncludes label "tariff" then
      { bd with billDetails := { bd.billDetails with tariff := some value } }
    else if jsIncludes label "due date" then
      { bd with billDetails := { bd.billDetails with dueDate := some value } }
    else if jsIncludes label "issue date" || jsIncludes label "bill date" then
      { bd with billDetails := { bd.billDetails with issueDate := some value } }
    else if jsIncludes label "reading date" then
      { bd with billDetails := { bd.billDetails with readingDate := some value } }
    else if jsIncludes label "current reading" then
      { bd with billDetails := { bd.billDetails with currentReading := some value } }
    else if jsIncludes label "previous reading" then
      { bd with billDetails := { bd.billDetails with previousReading := some value } }
    else if jsIncludes label "units" || jsIncludes label "consumption" then
      { bd with billDetails := { bd.billDetails with unitsConsumed := some value } }
    else if jsIncludes label "amount payable" || jsIncludes label "total amount" then
      { bd with charges := { bd.charges with totalAmount := some value } }
    else if jsIncludes label "after due date" then
      { bd with charges := { bd.charges with amountAfterDueDate := some value } }
    else if jsIncludes label "electricity charges" then
      { bd with charges := { bd.charges with electricityCharges := some value } }
    else if jsIncludes label "gst" || jsIncludes label "tax" then
      { bd with charges := { bd.charges with gst := some value } }
    else
      bd
  | _ => bd

/-- The `tableRows.each(...)` loop: process rows in order; a thrown
exception (an `Except.error` row) aborts the loop, yielding the record
built so far together with the exception message. -/
def scanRows : List (Except String (List String)) → BillData →
    BillData × Option String
  | [], bd => (bd, none)
  | Except.error msg :: _, bd => (bd, some msg)
  | Except.ok cells :: rest, bd => scanRows rest (processRow bd cells)

/-- Source `parseBillDetails($, refNo, companyCode)`: scan the table rows; if no
exception was thrown, also record the trimmed text of the first
"amount"-ish element as `displayAmount` and keep the serialised markup as
`rawHtml`; an exception is caught and recorded as `parseError` on the
record built so far.  Always returns a record. -/
def parseBillDetails (doc : PostDoc) (refNo companyCode : String) : BillData :=
  match scanRows doc.rows (initBillData refNo companyCode) with
  | (bd, some msg) => { bd with parseError := some msg }
  | (bd, none) =>
    let bd :=
      match doc.amountElemText with
      | some t => { bd with charges := { bd.charges with displayAmount := some (jsTrim t) } }
      | none => bd
    { bd with rawHtml := some doc.html }

/-! ## Lookup results and network model -/

/-- The result object of `getPITCBill` (and of the legacy module): a JS
object whose fields are present or absent depending on the branch taken. -/
structure LookupResult where
  success : Bool
  error : Option String := none
  refNo : Option String := none
  company : Option String := none
  companyName : Option String := none
  data : Option BillData := none
deriving DecidableEq, Repr

/-- An axios rejection: its optional `code` property (`"ECONNABORTED"`,
`"ENOTFOUND"`, …) and its `message`. -/
structure NetError where
  code : Option String
  message : String
deriving DecidableEq, Repr

/-- The catch block of `getPITCBill` applied to a network fault: timeout
codes map to the geo-restriction message, DNS/refused codes to the
generic connectivity message, anything else passes the fault's message
through. -/
def axiosErrorToResult (e : NetError) : LookupResult :=
  if e.code == some "ECONNABORTED" || e.code == some "UND_ERR_CONNECT_TIMEOUT" then
    { success := false,
      error := some "Connection timeout - PITC server may be geo-restricted or down" }
  else if e.code == some "ENOTFOUND" || e.code == some "ECONNREFUSED" then
    { success := false, error := some "Unable to connect to PITC server" }
  else
    { success := false, error := some e.message }

/-- The network: what the GET of a URL returns, and what the POST of a
form body to a URL returns.  `Except.error` is an axios rejection. -/
structure NetEnv where
  getResult : String → Except NetError GetPage
  postResult : String → List (String × String) → Except NetError PostDoc

/-- One performed network request, for the orchestrator's trace. -/
inductive NetRequest where
  | get (url : String)
  | post (url : String) (body : List (String × String))
deriving DecidableEq, Repr

/-- STEP 4–5 of `getPITCBill` on a successful POST response: a non-empty
trimmed `#ua` region is a business failure carrying that text, the
reference number and the company code; otherwise the parsed bill is
returned as a success. -/
def interpretPostResponse (doc : PostDoc) (refNo : String) (company : Company) :
    LookupResult :=
  let errorDiv := jsTrim doc.errorText
  if errorDiv ≠ "" then
    { success := false, error := some errorDiv,
      refNo := some refNo, company := some company.code }
  else
    { success := true, refNo := some refNo, company := some company.code,
      companyName := some company.name,
      data := some (parseBillDetails doc refNo company.code) }

/-- Source `getPITCBill(refNo, companyCode)`: resolve the company, GET its URL,
extract the four tokens, require the first three truthy, POST the form
body, interpret the response; axios rejections go through the catch
block.  Returns the result together with the trace of network requests
performed. -/
def getPITCBill (refNo companyCode : String) (env : NetEnv) :
    LookupResult × List NetRequest :=
  match getCompanyByCode companyCode with
  | none => ({ success := false, error := some invalidCompanyMessage }, [])
  | some company =>
    let baseUrl := company.url
    match env.getResult baseUrl with
    | Except.error e => (axiosErrorToResult e, [NetRequest.get baseUrl])
    | Except.ok page =>
      let (viewState, viewStateGenerator, eventValidation,
           requestVerificationToken) := extractTokens page
      if isFalsyStr viewState || isFalsyStr viewStateGenerator ||
          isFalsyStr eventValidation then
        ({ success := false,
           error := some "Failed to extract required tokens from PITC portal" },
         [NetRequest.get baseUrl])
      else
        let formData := buildFormBody viewState viewStateGenerator
          eventValidation requestVerificationToken refNo
        match env.postResult baseUrl formData with
        | Except.error e =>
          (axiosErrorToResult e,
           [NetRequest.get baseUrl, NetRequest.post baseUrl formData])
        | Except.ok doc =>
          (interpretPostResponse doc refNo company,
           [NetRequest.get baseUrl, NetRequest.post baseUrl formData])

/-! ## REST facade (`server.js`, `/api/check-bill`) -/

/-- An HTTP response of the facade: status code and JSON body (the body
shapes used by the handler all fit `LookupResult`). -/
structure HttpResponse where
  status : Nat
  body : LookupResult
deriving DecidableEq, Repr

/-- The `/api/check-bill` handler (GET and POST share this logic):
`company` defaults to `"hesco"` when absent, the reference number is
validated (400 on failure), then `getPITCBill` runs and its result maps
to 200 on success and 404 otherwise.  The 500 branch guards against
thrown exceptions, which the model's total functions cannot produce. -/
def checkBillHandler (refNo company : Option String) (env : NetEnv) :
    HttpResponse :=
  let comp := company.getD "hesco"
  let validation := validateReferenceNumber refNo
  if !validation.valid then
    ⟨400, { success := false, error := validation.error }⟩
  else
    let result := (getPITCBill (validation.refNo.getD "") comp env).1
    if result.success then ⟨200, result⟩ else ⟨404, result⟩

/-! ## Specification-side view of the label-to-field rules

The spec describes the if/else chain of `parseBillDetails` as an ordered
table of substring rules, first hit wins.  The definitions below follow
the spec's words; their agreement with `processRow` (translated from the
source) is proved, so claims about "the first matching rule" can be
stated against the table. -/

/-- The fourteen target fields of the label-to-field table. -/
inductive BillField where
  | name | address | customerId | tariff | dueDate | issueDate
  | readingDate | currentReading | previousReading | unitsConsumed
  | totalAmount | amountAfterDueDate | electricityCharges | gst
deriving DecidableEq, Repr

/-- The spec's rule table: for each target field, the substrings any one
of which makes a label match, in evaluation order. -/
def ruleTable : List (List String × BillField) :=
  [(["consumer", "name"], BillField.name),
   (["address"], BillField.address),
   (["customer", "id"], BillField.customerId),
   (["tariff"], BillField.tariff),
   (["due date"], BillField.dueDate),
   (["issue date", "bill date"], BillField.issueDate),
   (["reading date"], BillField.readingDate),
   (["current reading"], BillField.currentReading),
   (["previous reading"], BillField.previousReading),
   (["units", "consumption"], BillField.unitsConsumed),
   (["amount payable", "total amount"], BillField.totalAmount),
   (["after due date"], BillField.amountAfterDueDate),
   (["electricity charges"], BillField.electricityCharges),
   (["gst", "tax"], BillField.gst)]

/-- First rule of the table whose substrings hit the label, top to
bottom. -/
def firstMatch (label : String) : List (List String × BillField) → Option BillField
  | [] => none
  | (subs, f) :: rest =>
    if subs.any (fun sub => jsIncludes label sub) then some f
    else firstMatch label rest

/-- The field, if any, a row assigns per the spec's table, with the value
it assigns: rows of fewer than two cells assign nothing; otherwise the
trimmed lower-cased cell 0 is matched against the table and the trimmed
cell 1 is the value. -/
def rowAssignment (cells : List String) : Option (BillField × String) :=
  match cells with
  | c0 :: c1 :: _ =>
    (firstMatch (jsToLower (jsTrim c0)) ruleTable).map
      (fun f => (f, jsTrim c1))
  | _ => none

/-- Write one target field of a record. -/
def setField (bd : BillData) (f : BillField) (v : String) : BillData :=
  match f with
  | BillField.name =>
    { bd with consumerDetails := { bd.consumerDetails with name := some v } }
  | BillField.address =>
    { bd with consumerDetails := { bd.consumerDetails with address := some v } }
  | BillField.customerId =>
    { bd with consumerDetails := { bd.consumerDetails with customerId := some v } }
  | BillField.tariff =>
    { bd with billDetails := { bd.billDetails with tariff := some v } }
  | BillField.dueDate =>
    { bd with billDetails := { bd.billDetails with dueDate := some v } }
  | BillField.issueDate =>
    { bd with billDetails := { bd.billDetails with issueDate := some v } }
  | BillField.readingDate =>
    { bd with billDetails := { bd.billDetails with readingDate := some v } }
  | BillField.currentReading =>
    { bd with billDetails := { bd.billDetails with currentReading := some v } }
  | BillField.previousReading =>
    { bd with billDetails := { bd.billDetails with previousReading := some v } }
  | BillField.unitsConsumed =>
    { bd with billDetails := { bd.billDetails with unitsConsumed := some v } }
  | BillField.totalAmount =>
    { bd with charges := { bd.charges with totalAmount := some v } }
  | BillField.amountAfterDueDate =>
    { bd with charges := { bd.charges with amountAfterDueDate := some v } }
  | BillField.electricityCharges =>
    { bd with charges := { bd.charges with electricityCharges := some v } }
  | BillField.gst =>
    { bd with charges := { bd.charges with gst := some v } }

/-- Read one target field of a record. -/
def getField (bd : BillData) (f : BillField) : Option String :=
  match f with
  | BillField.name => bd.consumerDetails.name
  | BillField.address => bd.consumerDetails.address
  | BillField.customerId => bd.consumerDetails.customerId
  | BillField.tariff => bd.billDetails.tariff
  | BillField.dueDate => bd.billDetails.dueDate
  | BillField.issueDate => bd.billDetails.issueDate
  | BillField.readingDate => bd.billDetails.readingDate
  | BillField.currentReading => bd.billDetails.currentReading
  | BillField.previousReading => bd.billDetails.previousReading
  | BillField.unitsConsumed => bd.billDetails.unitsConsumed
  | BillField.totalAmount => bd.charges.totalAmount
  | BillField.amountAfterDueDate => bd.charges.amountAfterDueDate
  | BillField.electricityCharges => bd.charges.electricityCharges
  | BillField.gst => bd.charges.gst

/-- Apply an optional assignment to a record. -/
def applyAssignment (bd : BillData) : Option (BillField × String) → BillData
  | some (f, v) => setField bd f v
  | none => bd

/-- The assignment to a given field made by the last row of a list that
assigns that field, if any (later rows take precedence). -/
def lastAssignment (rows : List (List String)) (f : BillField) : Option String :=
  match rows with
  | [] => none
  | r :: rest =>
    (lastAssignment rest f).orElse (fun _ =>
      match rowAssignment r with
      | some (g, v) => if g = f then some v else none
      | none => none)

/-! ## Helper lemmas -/

/-- The if/else chain of `parseBillDetails` computes exactly the spec's
first-matching-rule assignment. -/
theorem processRow_eq_applyAssignment (bd : BillData) (cells : List String) :
    processRow bd cells = applyAssignment bd (rowAssignment cells) := by
  match cells with
  | [] => rfl
  | [_] => rfl
  | c0 :: c1 :: rest =>
    simp only [processRow, rowAssignment, ruleTable]
    simp only [firstMatch, List.any_cons, List.any_nil, Bool.or_false]
    simp only [applyAssignment]
    by_cases h1 : (jsIncludes (jsToLower (jsTrim c0)) "consumer" || jsIncludes (jsToLower (jsTrim c0)) "name") = true
    · simp only [if_pos h1]
      rfl
    · simp only [if_neg h1]
      by_cases h2 : jsIncludes (jsToLower (jsTrim c0)) "address" = true
      · simp only [if_pos h2]
        rfl
      · simp only [if_neg h2]
        by_cases h3 : (jsIncludes (jsToLower (jsTrim c0)) "customer" || jsIncludes (jsToLower (jsTrim c0)) "id") = true
        · simp only [if_pos h3]
          rfl
        · simp only [if_neg h3]
          by_cases h4 : jsIncludes (jsToLower (jsTrim c0)) "tariff" = true
          · simp only [if_pos h4]
            rfl
          · simp only [if_neg h4]
            by_cases h5 : jsIncludes (jsToLower (jsTrim c0)) "due date" = true
            · simp only [if_pos h5]
              rfl
            · simp only [if_neg h5]
              by_cases h6 : (jsIncludes (jsToLower (jsTrim c0)) "issue date" || jsIncludes (jsToLower (jsTrim c0)) "bill date") = true
              · simp only [if_pos h6]
                rfl
              · simp only [if_neg h6]
                by_cases h7 : jsIncludes (jsToLower (jsTrim c0)) "reading date" = true
                · simp only [if_pos h7]
                  rfl
                · simp only [if_neg h7]
                  by_cases h8 : jsIncludes (jsToLower (jsTrim c0)) "current reading" = true
                  · simp only [if_pos h8]
                    rfl
                  · simp only [if_neg h8]
                    by_cases h9 : jsIncludes (jsToLower (jsTrim c0)) "previous reading" = true
                    · simp only [if_pos h9]
                      rfl
                    · simp only [if_neg h9]
                      by_cases h10 : (jsIncludes (jsToLower (jsTrim c0)) "units" || jsIncludes (jsToLower (jsTrim c0)) "consumption") = true
                      · simp only [if_pos h10]
                        rfl
                      · simp only [if_neg h10]
                        by_cases h11 : (jsIncludes (jsToLower (jsTrim c0)) "amount payable" || jsIncludes (jsToLower (jsTrim c0)) "total amount") = true
                        · simp only [if_pos h11]
                          rfl
                        · simp only [if_neg h11]
                          by_cases h12 : jsIncludes (jsToLower (jsTrim c0)) "after due date" = true
                          · simp only [if_pos h12]
                            rfl
                          · simp only [if_neg h12]
                            by_cases h13 : jsIncludes (jsToLower (jsTrim c0)) "electricity charges" = true
                            · simp only [if_pos h13]
                              rfl
                            · simp only [if_neg h13]
                              by_cases h14 : (jsIncludes (jsToLower (jsTrim c0)) "gst" || jsIncludes (jsToLower (jsTrim c0)) "tax") = true
                              · simp only [if_pos h14]
                                rfl
                              · simp only [if_neg h14]
                                rfl

/-- Scanning a fault-free row list is a fold of `processRow`, with no
recorded exception. -/
theorem scanRows_map_ok (rows : List (List String)) (bd : BillData) :
    scanRows (rows.map Except.ok) bd = (rows.foldl processRow bd, none) := by
  induction rows generalizing bd with
  | nil => rfl
  | cons r rest ih => simpa [scanRows] using ih (processRow bd r)

/-- Scanning stops at the first faulting row, keeping the record built
from the fault-free prefix and reporting the fault's message. -/
theorem scanRows_fault (pre : List (List String)) (msg : String)
    (rest : List (Except String (List String))) (bd : BillData) :
    scanRows (pre.map Except.ok ++ Except.error msg :: rest) bd =
      (pre.foldl processRow bd, some msg) := by
  induction pre generalizing bd with
  | nil => rfl
  | cons r tail ih => simpa [scanRows] using ih (processRow bd r)

/-- Reading the field just written gives the written value. -/
theorem getField_setField_self (bd : BillData) (f : BillField) (v : String) :
    getField (setField bd f v) f = some v := by
  cases f <;> rfl

/-- Writing one field leaves every other field unchanged. -/
theorem getField_setField_ne (bd : BillData) (f g : BillField) (v : String)
    (h : f ≠ g) : getField (setField bd f v) g = getField bd g := by
  cases f <;> cases g <;> first | exact (h rfl).elim | rfl

/-- A field of the record left by the row fold: the last row assigning
the field wins; with no such row the field keeps its initial value. -/
theorem getField_foldl_processRow (rows : List (List String)) (bd : BillData)
    (f : BillField) :
    getField (rows.foldl processRow bd) f =
      ((lastAssignment rows f).orElse (fun _ => getField bd f)) := by
  induction rows generalizing bd with
  | nil => simp [lastAssignment, Option.orElse]
  | cons r rest ih =>
    simp only [List.foldl_cons, lastAssignment]
    rw [ih (processRow bd r), processRow_eq_applyAssignment]
    cases hl : lastAssignment rest f with
    | some v => simp [Option.orElse]
    | none =>
      cases ha : rowAssignment r with
      | none => simp [Option.orElse, applyAssignment]
      | some p =>
        obtain ⟨g, v⟩ := p
        by_cases hgf : g = f
        · subst hgf
          simp [Option.orElse, applyAssignment, getField_setField_self]
        · simp [Option.orElse, applyAssignment, hgf,
            getField_setField_ne bd g f v hgf]

/-! ## Claims -/

/-- C3: `validateReferenceNumber` applies its rules in order: a missing
or empty input fails with the "required" error; otherwise an input whose
trimmed form does not match `^\d{10,14}$` fails with the "must be 10-14
digits" error; and an input trimming to a 10–14 digit string succeeds,
returning exactly that trimmed string. -/
theorem validateReferenceNumber_rules_in_order :
    (∀ refNo : Option String, refNo = none ∨ refNo = some "" →
      validateReferenceNumber refNo =
        ⟨false, some "Reference number is required", none⟩) ∧
    (∀ s : String, s ≠ "" → refNoPatternTest (jsTrim s) = false →
      validateReferenceNumber (some s) =
        ⟨false, some "Reference number must be 10-14 digits", none⟩) ∧
    (∀ s : String, refNoPatternTest (jsTrim s) = true →
      validateReferenceNumber (some s) = ⟨true, none, some (jsTrim s)⟩) := by
  refine ⟨?_, ?_, ?_⟩
  · rintro refNo (rfl | rfl) <;> rfl
  · intro s hne h
    have hf : isFalsyStr (some s) = false := by
      simp [isFalsyStr, hne]
    simp [validateReferenceNumber, hf, jsToStringCoerce, h]
  · intro s h
    have hne : s ≠ "" := by
      intro hs
      rw [hs] at h
      exact absurd h (by decide)
    have hf : isFalsyStr (some s) = false := by
      simp [isFalsyStr, hne]
    simp [validateReferenceNumber, hf, jsToStringCoerce, h]

/-- Witness for C3: the three rules at concrete inputs. -/
theorem validateReferenceNumber_rules_witness :
    validateReferenceNumber none =
      ⟨false, some "Reference number is required", none⟩ ∧
    validateReferenceNumber (some "123") =
      ⟨false, some "Reference number must be 10-14 digits", none⟩ ∧
    validateReferenceNumber (some " 06113530462901 ") =
      ⟨true, none, some (jsTrim " 06113530462901 ")⟩ :=
  ⟨validateReferenceNumber_rules_in_order.1 none (Or.inl rfl),
   validateReferenceNumber_rules_in_order.2.1 "123" (by decide) (by decide),
   validateReferenceNumber_rules_in_order.2.2 " 06113530462901 " (by decide)⟩

/-- C4: for every table row with at least two cells, the extractor takes
cell 0 trimmed and lower-cased as the label and cell 1 trimmed as the
value, assigns the value to at most the first field matching the ordered
substring rules (`rowAssignment`/`ruleTable`, the spec's table), leaves
every field unchanged on a row matching no rule; in particular
["Consumer Name", "Jane Doe"] sets `consumerDetails.name` to "Jane Doe"
and ["Total Amount Payable", "5000"] sets `charges.totalAmount` to
"5000". -/
theorem processRow_first_matching_rule :
    (∀ (bd : BillData) (cells : List String),
      processRow bd cells = applyAssignment bd (rowAssignment cells)) ∧
    (∀ bd : BillData,
      (processRow bd ["Consumer Name", "Jane Doe"]).consumerDetails.name =
        some "Jane Doe") ∧
    (∀ bd : BillData,
      (processRow bd ["Total Amount Payable", "5000"]).charges.totalAmount =
        some "5000") := by
  refine ⟨processRow_eq_applyAssignment, fun bd => ?_, fun bd => ?_⟩
  · rw [processRow_eq_applyAssignment]
    rfl
  · rw [processRow_eq_applyAssignment]
    rfl

/-- C10: when several rows assign the same field, the returned record
holds the value from the last assigning row in document order (and a
field assigned by no row stays unset). -/
theorem parseBillDetails_last_matching_row_wins
    (errText html : String) (amt : Option String)
    (rows : List (List String)) (refNo companyCode : String) (f : BillField) :
    getField (parseBillDetails ⟨errText, rows.map Except.ok, amt, html⟩
      refNo companyCode) f = lastAssignment rows f := by
  have hinit : getField (initBillData refNo companyCode) f = none := by
    cases f <;> rfl
  have hfold := getField_foldl_processRow rows (initBillData refNo companyCode) f
  rw [hinit] at hfold
  have hscan := scanRows_map_ok rows (initBillData refNo companyCode)
  unfold parseBillDetails
  rw [hscan]
  have hskip : ∀ bd : BillData,
      getField (match amt with
        | some t =>
          { bd with charges := { bd.charges with displayAmount := some (jsTrim t) } }
        | none => bd) f = getField bd f := by
    intro bd
    cases amt <;> cases f <;> rfl
  have hraw : ∀ bd : BillData, getField { bd with rawHtml := some html } f =
      getField bd f := by
    intro bd
    cases f <;> rfl
  simp only []
  rw [hraw, hskip, hfold]
  cases lastAssignment rows f <;> rfl

/-- C5: a POST response whose error region has non-empty trimmed text is
interpreted as a failure whose error field is exactly that trimmed text,
carrying the reference number and company code; the result does not
depend on the tables in the response, so no field extraction is
attempted. -/
theorem interpretPostResponse_error_region (doc : PostDoc) (refNo : String)
    (company : Company) (h : jsTrim doc.errorText ≠ "") :
    interpretPostResponse doc refNo company =
      { success := false, error := some (jsTrim doc.errorText),
        refNo := some refNo, company := some company.code } ∧
    (∀ rows₂ : List (Except String (List String)),
      interpretPostResponse { doc with rows := rows₂ } refNo company =
        interpretPostResponse doc refNo company) := by
  constructor
  · simp [interpretPostResponse, h]
  · intro rows₂
    simp [interpretPostResponse, h]

/-- Witness for C5: a concrete errored response, with the trimmed region
text surfaced verbatim as the error. -/
theorem interpretPostResponse_error_region_witness :
    interpretPostResponse
        ⟨" Bill Not Found ", [Except.ok ["Consumer Name", "Jane Doe"]], none, ""⟩
        "06113530462901"
        ⟨"Hyderabad Electric Supply Company", "hesco",
          "https://bill.pitc.com.pk/hescobill"⟩ =
      { success := false, error := some "Bill Not Found",
        refNo := some "06113530462901", company := some "hesco" } :=
  ((interpretPostResponse_error_region
      ⟨" Bill Not Found ", [Except.ok ["Consumer Name", "Jane Doe"]], none, ""⟩
      "06113530462901"
      ⟨"Hyderabad Electric Supply Company", "hesco",
        "https://bill.pitc.com.pk/hescobill"⟩ (by decide)).1).trans (by decide)

/-- C9: company resolution is case-insensitive — for every registered
code, resolving its upper-cased and lower-cased forms yields the same
descriptor, namely that company's entry; and every code that is not a
casing of a registered key resolves to not-found. -/
theorem getCompanyByCode_case_insensitive :
    (∀ p ∈ COMPANIES,
      getCompanyByCode (jsToUpper p.2.code) = getCompanyByCode (jsToLower p.2.code) ∧
      getCompanyByCode (jsToUpper p.2.code) = some p.2) ∧
    (∀ code : String, (∀ p ∈ COMPANIES, jsToUpper code ≠ p.1) →
      getCompanyByCode code = none) := by
  constructor
  · decide
  · intro code h
    have hn : COMPANIES.find? (fun p => p.1 == jsToUpper code) = none := by
      rw [List.find?_eq_none]
      intro p hp
      simp only [beq_iff_eq]
      exact fun he => h p hp he.symm
    simp [getCompanyByCode, hn]

/-- Witness for C9: the LESCO entry, both casings, and an unregistered
code. -/
theorem getCompanyByCode_case_insensitive_witness :
    (getCompanyByCode (jsToUpper "lesco") = getCompanyByCode (jsToLower "lesco") ∧
      getCompanyByCode (jsToUpper "lesco") =
        some ⟨"Lahore Electric Supply Company", "lesco",
          "https://bill.pitc.com.pk/lescobill"⟩) ∧
    getCompanyByCode "invalid" = none :=
  ⟨getCompanyByCode_case_insensitive.1
      ("LESCO", ⟨"Lahore Electric Supply Company", "lesco",
        "https://bill.pitc.com.pk/lescobill"⟩) (by decide),
   getCompanyByCode_case_insensitive.2 "invalid" (by decide)⟩

/-- C6: when any of the first three tokens (view state, generator, event
validation) is absent or empty on the fetched page, the lookup fails with
the required-tokens error and its trace holds only the GET — no form was
submitted; and on a page carrying all four token fields the extractor
returns exactly the page's values, unmodified. -/
theorem getPITCBill_required_tokens
    (refNo code : String) (env : NetEnv) (company : Company) (page : GetPage)
    (hc : getCompanyByCode code = some company)
    (hg : env.getResult company.url = Except.ok page)
    (hmiss : (isFalsyStr (valById page "__VIEWSTATE") ||
      isFalsyStr (valById page "__VIEWSTATEGENERATOR") ||
      isFalsyStr (valById page "__EVENTVALIDATION")) = true) :
    getPITCBill refNo code env =
      ({ success := false,
         error := some "Failed to extract required tokens from PITC portal" },
       [NetRequest.get company.url]) ∧
    (∀ (a b c d : String) (rest : List InputElem),
      extractTokens ⟨⟨some "__VIEWSTATE", none, some a⟩ ::
        ⟨some "__VIEWSTATEGENERATOR", none, some b⟩ ::
        ⟨some "__EVENTVALIDATION", none, some c⟩ ::
        ⟨none, some "__RequestVerificationToken", some d⟩ :: rest⟩ =
        (some a, some b, some c, some d)) := by
  constructor
  · simp [getPITCBill, hc, hg, extractTokens, hmiss]
  · intro a b c d rest
    rfl

/-- Witness for C6: a page carrying only a view state; the lookup stops
after the GET with the required-tokens failure. -/
theorem getPITCBill_required_tokens_witness :
    getPITCBill "06113530462901" "hesco"
        ⟨fun _ => Except.ok ⟨[⟨some "__VIEWSTATE", none, some "VS"⟩]⟩,
         fun _ _ => Except.error ⟨none, "unreachable"⟩⟩ =
      ({ success := false,
         error := some "Failed to extract required tokens from PITC portal" },
       [NetRequest.get "https://bill.pitc.com.pk/hescobill"]) :=
  (getPITCBill_required_tokens "06113530462901" "hesco"
    ⟨fun _ => Except.ok ⟨[⟨some "__VIEWSTATE", none, some "VS"⟩]⟩,
     fun _ _ => Except.error ⟨none, "unreachable"⟩⟩
    ⟨"Hyderabad Electric Supply Company", "hesco",
      "https://bill.pitc.com.pk/hescobill"⟩
    ⟨[⟨some "__VIEWSTATE", none, some "VS"⟩]⟩
    (by decide) rfl (by decide)).1

/-- C2 (amended): when the page carries the three required state tokens
but no request-verification token, the lookup proceeds to the form
submission, and the posted body's `__RequestVerificationToken` field
holds the literal string "undefined" (the `URLSearchParams` coercion of
`undefined`), not the empty string. -/
theorem getPITCBill_missing_verification_token
    (refNo code : String) (env : NetEnv) (company : Company) (page : GetPage)
    (hc : getCompanyByCode code = some company)
    (hg : env.getResult company.url = Except.ok page)
    (hvs : isFalsyStr (valById page "__VIEWSTATE") = false)
    (hvsg : isFalsyStr (valById page "__VIEWSTATEGENERATOR") = false)
    (hev : isFalsyStr (valById page "__EVENTVALIDATION") = false)
    (hrvt : valByName page "__RequestVerificationToken" = none) :
    (getPITCBill refNo code env).2 =
      [NetRequest.get company.url,
       NetRequest.post company.url
         (buildFormBody (valById page "__VIEWSTATE")
           (valById page "__VIEWSTATEGENERATOR")
           (valById page "__EVENTVALIDATION") none refNo)] ∧
    ("__RequestVerificationToken", "undefined") ∈
      buildFormBody (valById page "__VIEWSTATE")
        (valById page "__VIEWSTATEGENERATOR")
        (valById page "__EVENTVALIDATION") none refNo := by
  constructor
  · simp only [getPITCBill, hc, hg, extractTokens, hrvt]
    simp only [hvs, hvsg, hev, Bool.or_self, Bool.or_false]
    cases env.postResult company.url
        (buildFormBody (valById page "__VIEWSTATE")
          (valById page "__VIEWSTATEGENERATOR")
          (valById page "__EVENTVALIDATION") none refNo) <;>
      simp
  · simp [buildFormBody, jsToStringCoerce]

/-- Counterexample for C2 as stated: on a page with the three state
tokens and no verification token, the posted body's
`__RequestVerificationToken` value is "undefined", and no
`("__RequestVerificationToken", "")` pair is in the body. -/
theorem getPITCBill_missing_verification_token_cex :
    ((getPITCBill "06113530462901" "hesco"
        ⟨fun _ => Except.ok ⟨[⟨some "__VIEWSTATE", none, some "VS"⟩,
           ⟨some "__VIEWSTATEGENERATOR", none, some "VSG"⟩,
           ⟨some "__EVENTVALIDATION", none, some "EV"⟩]⟩,
         fun _ _ => Except.error ⟨none, "down"⟩⟩).2 =
      [NetRequest.get "https://bill.pitc.com.pk/hescobill",
       NetRequest.post "https://bill.pitc.com.pk/hescobill"
         [("__VIEWSTATE", "VS"), ("__VIEWSTATEGENERATOR", "VSG"),
          ("__EVENTVALIDATION", "EV"),
          ("__RequestVerificationToken", "undefined"),
          ("rbSearchByList", "refno"), ("searchTextBox", "06113530462901"),
          ("ruCodeTextBox", ""), ("btnSearch", "Search")]]) ∧
    ("__RequestVerificationToken", "") ∉
      [("__VIEWSTATE", "VS"), ("__VIEWSTATEGENERATOR", "VSG"),
       ("__EVENTVALIDATION", "EV"),
       ("__RequestVerificationToken", "undefined"),
       ("rbSearchByList", "refno"), ("searchTextBox", "06113530462901"),
       ("ruCodeTextBox", ""), ("btnSearch", "Search")] := by
  decide

/-- Witness for the amended C2: the same concrete page, via the general
theorem. -/
theorem getPITCBill_missing_verification_token_witness :
    ((getPITCBill "06113530462901" "hesco"
        ⟨fun _ => Except.ok ⟨[⟨some "__VIEWSTATE", none, some "VS"⟩,
           ⟨some "__VIEWSTATEGENERATOR", none, some "VSG"⟩,
           ⟨some "__EVENTVALIDATION", none, some "EV"⟩]⟩,
         fun _ _ => Except.error ⟨none, "down"⟩⟩).2 =
      [NetRequest.get "https://bill.pitc.com.pk/hescobill",
       NetRequest.post "https://bill.pitc.com.pk/hescobill"
         (buildFormBody (some "VS") (some "VSG") (some "EV") none
           "06113530462901")]) ∧
    ("__RequestVerificationToken", "undefined") ∈
      buildFormBody (some "VS") (some "VSG") (some "EV") none
        "06113530462901" :=
  getPITCBill_missing_verification_token "06113530462901" "hesco"
    ⟨fun _ => Except.ok ⟨[⟨some "__VIEWSTATE", none, some "VS"⟩,
       ⟨some "__VIEWSTATEGENERATOR", none, some "VSG"⟩,
       ⟨some "__EVENTVALIDATION", none, some "EV"⟩]⟩,
     fun _ _ => Except.error ⟨none, "down"⟩⟩
    ⟨"Hyderabad Electric Supply Company", "hesco",
      "https://bill.pitc.com.pk/hescobill"⟩
    ⟨[⟨some "__VIEWSTATE", none, some "VS"⟩,
      ⟨some "__VIEWSTATEGENERATOR", none, some "VSG"⟩,
      ⟨some "__EVENTVALIDATION", none, some "EV"⟩]⟩
    (by decide) rfl (by decide) (by decide) (by decide) (by decide)

/-- C7: every network fault is converted to a failure result: the catch
block maps the timeout codes to the geo-restriction message, DNS/refused
codes to the generic connectivity message, and any other fault to its own
message; and a rejection of either the GET or the POST makes the lookup
return exactly that converted failure. -/
theorem getPITCBill_network_fault_taxonomy :
    (∀ e : NetError, (axiosErrorToResult e).success = false ∧
      (e.code = some "ECONNABORTED" ∨ e.code = some "UND_ERR_CONNECT_TIMEOUT" →
        (axiosErrorToResult e).error =
          some "Connection timeout - PITC server may be geo-restricted or down") ∧
      (e.code = some "ENOTFOUND" ∨ e.code = some "ECONNREFUSED" →
        (axiosErrorToResult e).error = some "Unable to connect to PITC server") ∧
      (e.code ≠ some "ECONNABORTED" → e.code ≠ some "UND_ERR_CONNECT_TIMEOUT" →
        e.code ≠ some "ENOTFOUND" → e.code ≠ some "ECONNREFUSED" →
        (axiosErrorToResult e).error = some e.message)) ∧
    (∀ (refNo code : String) (env : NetEnv) (company : Company) (e : NetError),
      getCompanyByCode code = some company →
      env.getResult company.url = Except.error e →
      (getPITCBill refNo code env).1 = axiosErrorToResult e) ∧
    (∀ (refNo code : String) (env : NetEnv) (company : Company)
        (page : GetPage) (e : NetError),
      getCompanyByCode code = some company →
      env.getResult company.url = Except.ok page →
      isFalsyStr (valById page "__VIEWSTATE") = false →
      isFalsyStr (valById page "__VIEWSTATEGENERATOR") = false →
      isFalsyStr (valById page "__EVENTVALIDATION") = false →
      env.postResult company.url
        (buildFormBody (valById page "__VIEWSTATE")
          (valById page "__VIEWSTATEGENERATOR")
          (valById page "__EVENTVALIDATION")
          (valByName page "__RequestVerificationToken") refNo) =
        Except.error e →
      (getPITCBill refNo code env).1 = axiosErrorToResult e) := by
  refine ⟨fun e => ⟨?_, ?_, ?_, ?_⟩, ?_, ?_⟩
  · unfold axiosErrorToResult
    split_ifs <;> rfl
  · rintro (h | h) <;> simp [axiosErrorToResult, h]
  · rintro (h | h) <;> simp [axiosErrorToResult, h]
  · intro h1 h2 h3 h4
    simp [axiosErrorToResult, h1, h2, h3, h4]
  · intro refNo code env company e hc hg
    simp [getPITCBill, hc, hg]
  · intro refNo code env company page e hc hg hvs hvsg hev hp
    simp only [getPITCBill, hc, hg, extractTokens]
    simp only [hvs, hvsg, hev, Bool.or_self, Bool.or_false]
    simp [hp]

/-- Witness for C7: a timeout on the GET yields the geo-restriction
message as a failure result. -/
theorem getPITCBill_network_fault_taxonomy_witness :
    (getPITCBill "06113530462901" "hesco"
        ⟨fun _ => Except.error ⟨some "ECONNABORTED", "timeout of 30000ms exceeded"⟩,
         fun _ _ => Except.error ⟨some "ECONNABORTED", "timeout of 30000ms exceeded"⟩⟩).1 =
      axiosErrorToResult ⟨some "ECONNABORTED", "timeout of 30000ms exceeded"⟩ ∧
    (axiosErrorToResult ⟨some "ECONNABORTED", "timeout of 30000ms exceeded"⟩).error =
      some "Connection timeout - PITC server may be geo-restricted or down" ∧
    (axiosErrorToResult ⟨some "ECONNABORTED", "timeout of 30000ms exceeded"⟩).success =
      false :=
  ⟨getPITCBill_network_fault_taxonomy.2.1 "06113530462901" "hesco"
      ⟨fun _ => Except.error ⟨some "ECONNABORTED", "timeout of 30000ms exceeded"⟩,
       fun _ _ => Except.error ⟨some "ECONNABORTED", "timeout of 30000ms exceeded"⟩⟩
      ⟨"Hyderabad Electric Supply Company", "hesco",
        "https://bill.pitc.com.pk/hescobill"⟩
      ⟨some "ECONNABORTED", "timeout of 30000ms exceeded"⟩ (by decide) rfl,
   (getPITCBill_network_fault_taxonomy.1
      ⟨some "ECONNABORTED", "timeout of 30000ms exceeded"⟩).2.1 (Or.inl rfl),
   (getPITCBill_network_fault_taxonomy.1
      ⟨some "ECONNABORTED", "timeout of 30000ms exceeded"⟩).1⟩

/-- C8: an exception thrown while scanning the bill tables is caught
inside `parseBillDetails`: the record is returned with the fields
populated by the rows before the fault and the fault's message as the
parse-error note, and the lookup still interprets the response as a
success carrying that record. -/
theorem parseBillDetails_exception_graceful
    (refNo : String) (company : Company) (doc : PostDoc)
    (pre : List (List String)) (msg : String)
    (rest : List (Except String (List String)))
    (hrows : doc.rows = pre.map Except.ok ++ Except.error msg :: rest)
    (herr : jsTrim doc.errorText = "") :
    parseBillDetails doc refNo company.code =
      { pre.foldl processRow (initBillData refNo company.code) with
        parseError := some msg } ∧
    interpretPostResponse doc refNo company =
      { success := true, refNo := some refNo, company := some company.code,
        companyName := some company.name,
        data := some (parseBillDetails doc refNo company.code) } := by
  constructor
  · unfold parseBillDetails
    rw [hrows, scanRows_fault]
  · simp [interpretPostResponse, herr]

/-- Witness for C8: one good row, then a fault; the name field survives,
the fault is noted, the response still interprets as a success. -/
theorem parseBillDetails_exception_graceful_witness :
    (parseBillDetails
        ⟨"", [Except.ok ["Consumer Name", "Jane Doe"], Except.error "boom"],
          none, "<html></html>"⟩ "06113530462901" "hesco").parseError =
      some "boom" ∧
    (parseBillDetails
        ⟨"", [Except.ok ["Consumer Name", "Jane Doe"], Except.error "boom"],
          none, "<html></html>"⟩ "06113530462901" "hesco").consumerDetails.name =
      some "Jane Doe" ∧
    (interpretPostResponse
        ⟨"", [Except.ok ["Consumer Name", "Jane Doe"], Except.error "boom"],
          none, "<html></html>"⟩ "06113530462901"
        ⟨"Hyderabad Electric Supply Company", "hesco",
          "https://bill.pitc.com.pk/hescobill"⟩).success = true := by
  have h := parseBillDetails_exception_graceful "06113530462901"
    ⟨"Hyderabad Electric Supply Company", "hesco",
      "https://bill.pitc.com.pk/hescobill"⟩
    ⟨"", [Except.ok ["Consumer Name", "Jane Doe"], Except.error "boom"],
      none, "<html></html>"⟩
    [["Consumer Name", "Jane Doe"]] "boom" [] rfl (by decide)
  refine ⟨?_, ?_, ?_⟩
  · rw [h.1]
  · rw [h.1]
    decide
  · rw [h.2]

/-- Counterexample for C1 as stated: a validated reference number with
the unknown company code "invalid" makes the facade answer 404, not
400. -/
theorem checkBill_unknown_company_cex :
    (checkBillHandler (some "06113530462901") (some "invalid")
        ⟨fun _ => Except.error ⟨none, "offline"⟩,
         fun _ _ => Except.error ⟨none, "offline"⟩⟩).status = 404 ∧
    (checkBillHandler (some "06113530462901") (some "invalid")
        ⟨fun _ => Except.error ⟨none, "offline"⟩,
         fun _ _ => Except.error ⟨none, "offline"⟩⟩).status ≠ 400 ∧
    (validateReferenceNumber (some "06113530462901")).valid = true ∧
    getCompanyByCode "invalid" = none := by
  decide

/-- C1 (amended): for every request whose reference number passes
validation and whose company code misses the registry
(case-insensitively), the facade answers 404 — the business-failure
status — with a failure body whose error message enumerates every
registered company code. -/
theorem checkBill_unknown_company_404
    (rawRef : Option String) (code : String) (env : NetEnv)
    (hv : (validateReferenceNumber rawRef).valid = true)
    (hc : getCompanyByCode code = none) :
    checkBillHandler rawRef (some code) env =
      ⟨404, { success := false, error := some invalidCompanyMessage }⟩ ∧
    invalidCompanyMessage =
      "Invalid company code. Supported: hesco, lesco, fesco, iesco, mepco, gepco, pesco, qesco, sepco" := by
  constructor
  · simp [checkBillHandler, hv, getPITCBill, hc]
  · decide

/-- Witness for the amended C1: the concrete unknown code "invalid". -/
theorem checkBill_unknown_company_404_witness :
    checkBillHandler (some "06113530462901") (some "invalid")
        ⟨fun _ => Except.error ⟨none, "offline"⟩,
         fun _ _ => Except.error ⟨none, "offline"⟩⟩ =
      ⟨404, { success := false, error := some invalidCompanyMessage }⟩ :=
  (checkBill_unknown_company_404 (some "06113530462901") "invalid"
    ⟨fun _ => Except.error ⟨none, "offline"⟩,
     fun _ _ => Except.error ⟨none, "offline"⟩⟩
    (by decide) (by decide)).1

end PITC
